import Mathlib

/-!
Verification of the MG EV BMS poll decoder
(`vehicle_mgev/src/mg_poll_bms.cpp` of Open-Vehicle-Monitoring-System-3).

Modelling conventions:
* All float/double arithmetic of the source is embedded as exact rational
  arithmetic over `ℚ`; the decoded formulas are linear with small constant
  divisors, so the rational value is the ideal value the source computes.
* Bytes (`uint8_t`) are `Fin 256`; wider machine integers are `Nat`
  (they never overflow in this code: `data[0] << 8 | data[1] < 2^16`).
* The metrics store (`StandardMetrics`, `OvmsMetricVector`) and the config
  store (`MyConfig`) are collaborators whose code is not part of this
  fragment; they are modelled from the spec as plain fields of a state
  record, with the per-cell vector metrics as partial maps `Fin 9 → Option ℚ`
  ("the current full set of per-index values" being the populated entries).
-/

/-- One incoming frame payload: the decoder reads at most `data[0..3]`
(`data[3]` only in a commented-out line of the source). -/
structure DataBytes where
  d0 : Fin 256
  d1 : Fin 256
  d2 : Fin 256
  d3 : Fin 256
deriving DecidableEq, Repr

/-- Modelled from the spec: the metrics-store aggregate read of a per-cell
vector metric — "produce the current full set of per-index values", i.e. the
values of the populated indices, in index order. -/
def vecVals (f : Fin 9 → Option ℚ) : List ℚ :=
  (List.finRange 9).filterMap f

/-- Modelled from the spec: `OvmsMetricVector::SetElemValue(index, value)`
writes one per-index element of a vector metric. -/
def setElemValue (f : Fin 9 → Option ℚ) (i : Fin 9) (v : ℚ) : Fin 9 → Option ℚ :=
  Function.update f i (some v)

/-- The decoder state: the one-byte cross-frame cache `m_bmsCache` owned by
`OvmsVehicleMgEv`, together with the external metrics store (modelled from
the spec as scalar and per-cell-vector fields) and the one boolean
configuration parameter `xmg/updatedbmu` read by `calculateSoc`. -/
structure MgEvState where
  m_bmsCache : Fin 256
  cell_vmin : Fin 9 → Option ℚ
  cell_vmax : Fin 9 → Option ℚ
  cell_tmin : Fin 9 → Option ℚ
  cell_tmax : Fin 9 → Option ℚ
  pack_vmin : ℚ
  pack_vmax : ℚ
  pack_tmin : ℚ
  pack_tmax : ℚ
  bat_voltage : ℚ
  bat_current : ℚ
  bat_power : ℚ
  bat_pack_voltage : ℚ
  soc_raw : ℚ
  bat_soc : ℚ
  bat_range_ideal : ℚ
  bat_temp : ℚ
  bat_soh : ℚ
  bat_range_est : ℚ
  charge_inprogress : Bool
  charge_type : String
  charge_state : String
  charge_current : ℚ
  charge_power : ℚ
  charge_climit : ℚ
  charge_voltage : ℚ
  updatedbmu : Bool

attribute [ext] MgEvState

/-- `OvmsVehicleMgEv::ProcessBatteryStats(index, data, remain)`:
per-block cell statistics, split over two frames distinguished by
`remain` nonzero (first/min frame) vs zero (second/max frame). -/
def ProcessBatteryStats (s : MgEvState) (index : Fin 9) (data : DataBytes)
    (remain : Nat) : MgEvState :=
  if remain ≠ 0 then
    -- uint16_t vmin = (data[0] << 8 | data[1]); m_bmsCache = data[2];
    let vmin : Nat := ((data.d0 : Nat) <<< 8) ||| (data.d1 : Nat)
    let cv := setElemValue s.cell_vmin index ((vmin : ℚ) / 2000 + 1)
    { s with
      m_bmsCache := data.d2
      cell_vmin := cv
      pack_vmin := ((vecVals cv).min?).getD s.pack_vmin }
  else
    -- uint16_t vmax = (m_bmsCache << 8 | data[0]);
    let vmax : Nat := ((s.m_bmsCache : Nat) <<< 8) ||| (data.d0 : Nat)
    let tmin : Fin 256 := data.d1
    let tmax : Fin 256 := data.d2
    let cv := setElemValue s.cell_vmax index ((vmax : ℚ) / 2000 + 1)
    let ct1 := setElemValue s.cell_tmin index ((tmin : ℚ) * 0.5 - 40)
    let ct2 := setElemValue s.cell_tmax index ((tmax : ℚ) * 0.5 - 40)
    { s with
      cell_vmax := cv
      cell_tmin := ct1
      cell_tmax := ct2
      pack_vmax := ((vecVals cv).max?).getD s.pack_vmax
      pack_tmin := ((vecVals ct1).min?).getD s.pack_tmin
      pack_tmax := ((vecVals ct2).max?).getD s.pack_tmax }

/-- The `BmsStatus` response codes (anonymous-namespace enum of the source). -/
def ConnectedNotCharging1 : Fin 256 := 0x0

/-- BmsStatus code Idle. -/
def Idle : Fin 256 := 0x1

/-- BmsStatus code Running. -/
def Running : Fin 256 := 0x3

/-- BmsStatus code Charging. -/
def Charging : Fin 256 := 0x6

/-- BmsStatus code CcsCharging. -/
def CcsCharging : Fin 256 := 0x7

/-- BmsStatus code AboutToSleep. -/
def AboutToSleep : Fin 256 := 0x8

/-- BmsStatus code Connected. -/
def Connected : Fin 256 := 0xa

/-- BmsStatus code StartingCharge. -/
def StartingCharge : Fin 256 := 0xc

/-- `OvmsVehicleMgEv::SetBmsStatus(status)`: the charge-state machine. -/
def SetBmsStatus (s : MgEvState) (status : Fin 256) : MgEvState :=
  if status = StartingCharge ∨ status = Charging then
    { s with charge_inprogress := true, charge_type := "type2" }
  else if status = CcsCharging then
    { s with
      charge_inprogress := true
      charge_type := "ccs"
      charge_current := -s.bat_current
      charge_power := s.bat_power
      charge_climit := 82
      charge_voltage := s.bat_voltage }
  else
    if s.charge_inprogress then
      if s.bat_soc ≥ 97 then
        { s with
          charge_type := "not charging"
          charge_state := "done"
          charge_inprogress := false }
      else
        { s with
          charge_type := "not charging"
          charge_state := "stopped"
          charge_inprogress := false }
    else s

/-- `OvmsVehicleMgEv::calculateSoc(value)`: linear SOC remap, window chosen
by the `xmg/updatedbmu` boolean parameter. -/
def calculateSoc (updatedbmu : Bool) (value : Nat) : ℚ :=
  let lowerlimit : ℤ := if updatedbmu then 25 else 60
  let upperlimit : ℤ := if updatedbmu then 940 else 970
  ((value : ℚ) - (lowerlimit : ℚ)) * 100 / ((upperlimit : ℚ) - (lowerlimit : ℚ))

/-- Modelled from the spec: the PID constants of `mg_obd_pids.h` (a header
outside this fragment) are distinct identifiers; the nine cell-block-stat
PIDs carry their zero-based block index. `other` stands for any PID with no
`case` in the dispatch switch. -/
inductive Pid where
  | cellStat (i : Fin 9)
  | batteryBusVoltage
  | batteryCurrent
  | batteryVoltage
  | batterySoC
  | bmsStatus
  | batteryCoolantTemp
  | batterySoH
  | bmsRange
  | other
deriving DecidableEq, Repr

/-- `OvmsVehicleMgEv::IncomingBmsPoll(pid, data, length, remain)`:
the per-PID dispatch. `length` is accepted and unused, as in the source. -/
def IncomingBmsPoll (s : MgEvState) (pid : Pid) (data : DataBytes)
    (length : Fin 256) (remain : Nat) : MgEvState :=
  let _ := length
  let value : Nat := ((data.d0 : Nat) <<< 8) ||| (data.d1 : Nat)
  match pid with
  | .cellStat i => ProcessBatteryStats s i data remain
  | .batteryBusVoltage =>
      if value ≠ 0xfffe then
        { s with bat_voltage := (value : ℚ) * 0.25 }
      else
        { s with bat_voltage := s.bat_pack_voltage }
  | .batteryCurrent =>
      let current : ℚ := (((value : ℚ) - 40000) * 0.25) / 10
      { s with
        bat_current := current
        bat_power := -(s.bat_voltage * current) / 1000 }
  | .batteryVoltage =>
      { s with bat_pack_voltage := (value : ℚ) * 0.25 }
  | .batterySoC =>
      let scaledSoc := calculateSoc s.updatedbmu value
      let s1 := { s with soc_raw := (value : ℚ) / 10 }
      let s2 :=
        if s1.charge_inprogress then
          if scaledSoc < 99.5 then
            { s1 with charge_state := "charging" }
          else
            { s1 with charge_state := "topoff" }
        else s1
      { s2 with
        bat_soc := scaledSoc
        bat_range_ideal := 262 * (scaledSoc / 100) }
  | .bmsStatus => SetBmsStatus s data.d0
  | .batteryCoolantTemp =>
      { s with bat_temp := (data.d0 : ℚ) * 0.5 - 40 }
  | .batterySoH =>
      { s with bat_soh := (value : ℚ) / 100 }
  | .bmsRange =>
      { s with bat_range_est := (value : ℚ) / 10 }
  | .other => s

/-- A concrete decoder/metrics state used to instantiate theorems with
hypotheses: freshly constructed decoder, all metrics at their defaults. -/
def initState : MgEvState where
  m_bmsCache := 0
  cell_vmin := fun _ => none
  cell_vmax := fun _ => none
  cell_tmin := fun _ => none
  cell_tmax := fun _ => none
  pack_vmin := 0
  pack_vmax := 0
  pack_tmin := 0
  pack_tmax := 0
  bat_voltage := 0
  bat_current := 0
  bat_power := 0
  bat_pack_voltage := 0
  soc_raw := 0
  bat_soc := 0
  bat_range_ideal := 0
  bat_temp := 0
  bat_soh := 0
  bat_range_est := 0
  charge_inprogress := false
  charge_type := ""
  charge_state := ""
  charge_current := 0
  charge_power := 0
  charge_climit := 0
  charge_voltage := 0
  updatedbmu := true

/-- A concrete state in which a charge is in progress at 98.0% SOC. -/
def stateCharging : MgEvState :=
  { initState with charge_inprogress := true, bat_soc := 98 }

/-- A concrete first (min) cell-block frame payload. -/
def frameA : DataBytes := ⟨0x10, 0x20, 0x30, 0⟩

/-- A concrete second (max) cell-block frame payload. -/
def frameB : DataBytes := ⟨0x40, 0x50, 0x60, 0⟩

lemma vecVals_setElemValue_ne_nil (f : Fin 9 → Option ℚ) (i : Fin 9) (v : ℚ) :
    vecVals (setElemValue f i v) ≠ [] := by
  intro h
  have hv : v ∈ vecVals (setElemValue f i v) := by
    simp only [vecVals, setElemValue, List.mem_filterMap]
    exact ⟨i, List.mem_finRange i, by simp⟩
  rw [h] at hv
  exact List.not_mem_nil v hv

lemma min?_getD_of_ne_nil (l : List ℚ) (h : l ≠ []) (d : ℚ) :
    l.min? = some (l.min?.getD d) := by
  cases l with
  | nil => exact absurd rfl h
  | cons a as => rfl

lemma max?_getD_of_ne_nil (l : List ℚ) (h : l ≠ []) (d : ℚ) :
    l.max? = some (l.max?.getD d) := by
  cases l with
  | nil => exact absurd rfl h
  | cons a as => rfl

lemma min?_getD_getD (l : List ℚ) (h : l ≠ []) (d : ℚ) :
    l.min?.getD (l.min?.getD d) = l.min?.getD d := by
  cases l with
  | nil => exact absurd rfl h
  | cons a as => rfl

lemma max?_getD_getD (l : List ℚ) (h : l ≠ []) (d : ℚ) :
    l.max?.getD (l.max?.getD d) = l.max?.getD d := by
  cases l with
  | nil => exact absurd rfl h
  | cons a as => rfl

/-- Claim C1: for every valid two-frame sequence for the same block index
(first a frame with `remain` nonzero, then a frame with `remain` zero), the
decoded cell values equal the documented linear formulas: cell vmin =
((data[0] << 8 | data[1]) / 2000) + 1.0 V with data[2] cached; cell vmax =
(((cached byte << 8) | data[0]) / 2000) + 1.0 V; cell tmin = data[1] * 0.5
- 40 C; cell tmax = data[2] * 0.5 - 40 C, each written at that block
index. -/
theorem ProcessBatteryStats_two_frame_decode (s : MgEvState) (i : Fin 9)
    (dA dB : DataBytes) (remain : Nat) (hr : remain ≠ 0) :
    (ProcessBatteryStats (ProcessBatteryStats s i dA remain) i dB 0).cell_vmin i
        = some (((((dA.d0 : Nat) <<< 8) ||| (dA.d1 : Nat) : Nat) : ℚ) / 2000 + 1) ∧
    (ProcessBatteryStats (ProcessBatteryStats s i dA remain) i dB 0).cell_vmax i
        = some (((((dA.d2 : Nat) <<< 8) ||| (dB.d0 : Nat) : Nat) : ℚ) / 2000 + 1) ∧
    (ProcessBatteryStats (ProcessBatteryStats s i dA remain) i dB 0).cell_tmin i
        = some ((dB.d1 : ℚ) * 0.5 - 40) ∧
    (ProcessBatteryStats (ProcessBatteryStats s i dA remain) i dB 0).cell_tmax i
        = some ((dB.d2 : ℚ) * 0.5 - 40) := by
  simp [ProcessBatteryStats, setElemValue, hr, Function.update_same]

/-- Claim C1 witness: the two-frame decode theorem instantiated at the fresh
state, block index 3, concrete payloads `frameA` then `frameB`, `remain` 1. -/
theorem ProcessBatteryStats_two_frame_decode_witness :
    (1 : Nat) ≠ 0 ∧
    ((ProcessBatteryStats (ProcessBatteryStats initState 3 frameA 1) 3 frameB 0).cell_vmin 3
        = some (((((frameA.d0 : Nat) <<< 8) ||| (frameA.d1 : Nat) : Nat) : ℚ) / 2000 + 1) ∧
    (ProcessBatteryStats (ProcessBatteryStats initState 3 frameA 1) 3 frameB 0).cell_vmax 3
        = some (((((frameA.d2 : Nat) <<< 8) ||| (frameB.d0 : Nat) : Nat) : ℚ) / 2000 + 1) ∧
    (ProcessBatteryStats (ProcessBatteryStats initState 3 frameA 1) 3 frameB 0).cell_tmin 3
        = some ((frameB.d1 : ℚ) * 0.5 - 40) ∧
    (ProcessBatteryStats (ProcessBatteryStats initState 3 frameA 1) 3 frameB 0).cell_tmax 3
        = some ((frameB.d2 : ℚ) * 0.5 - 40)) :=
  ⟨by decide, ProcessBatteryStats_two_frame_decode initState 3 frameA frameB 1 (by decide)⟩

/-- Claim C2: after every cell-block stat update, the pack-level extreme
recomputed by that update equals the corresponding extreme over the full
cell vector: after a min-frame, pack vmin = min over all populated cell
vmin elements; after a max-frame, pack vmax = max over all cell vmax, pack
tmin = min over all cell tmin, and pack tmax = max over all cell tmax —
for any subset of the 9 block indices populated so far. -/
theorem ProcessBatteryStats_pack_extremes (s : MgEvState) (i : Fin 9)
    (data : DataBytes) (remain : Nat) :
    if remain = 0 then
      (vecVals (ProcessBatteryStats s i data remain).cell_vmax).max?
          = some (ProcessBatteryStats s i data remain).pack_vmax ∧
      (vecVals (ProcessBatteryStats s i data remain).cell_tmin).min?
          = some (ProcessBatteryStats s i data remain).pack_tmin ∧
      (vecVals (ProcessBatteryStats s i data remain).cell_tmax).max?
          = some (ProcessBatteryStats s i data remain).pack_tmax
    else
      (vecVals (ProcessBatteryStats s i data remain).cell_vmin).min?
          = some (ProcessBatteryStats s i data remain).pack_vmin := by
  by_cases h0 : remain = 0
  · subst h0
    simp only [if_pos rfl, ProcessBatteryStats, ne_eq, not_true_eq_false, if_false]
    refine ⟨?_, ?_, ?_⟩
    · exact max?_getD_of_ne_nil _ (vecVals_setElemValue_ne_nil _ _ _) _
    · exact min?_getD_of_ne_nil _ (vecVals_setElemValue_ne_nil _ _ _) _
    · exact max?_getD_of_ne_nil _ (vecVals_setElemValue_ne_nil _ _ _) _
  · rw [if_neg h0]
    simp only [ProcessBatteryStats, ne_eq, h0, not_false_eq_true, if_true]
    exact min?_getD_of_ne_nil _ (vecVals_setElemValue_ne_nil _ _ _) _

/-- Claim C3: for every BMS status byte not in 0x6 (Charging), 0x7
(CcsCharging), 0xC (StartingCharge): if charge-in-progress is currently
true, the transition sets charge type to "not charging", charge state to
"done" when current SOC >= 97.0 and to "stopped" otherwise, and
in-progress to false; if in-progress is currently false, the transition
changes nothing. -/
theorem SetBmsStatus_default_branch (s : MgEvState) (status : Fin 256)
    (h6 : status ≠ Charging) (h7 : status ≠ CcsCharging)
    (hC : status ≠ StartingCharge) :
    SetBmsStatus s status =
      if s.charge_inprogress then
        { s with
          charge_type := "not charging"
          charge_state := if s.bat_soc ≥ 97 then "done" else "stopped"
          charge_inprogress := false }
      else s := by
  rw [SetBmsStatus, if_neg (by simp [hC, h6]), if_neg h7]
  by_cases hp : s.charge_inprogress
  · rw [if_pos hp, if_pos hp]
    by_cases hsoc : s.bat_soc ≥ 97
    · rw [if_pos hsoc, if_pos hsoc]
    · rw [if_neg hsoc, if_neg hsoc]
  · rw [if_neg hp, if_neg hp]

/-- Claim C3 witness: the default-branch theorem instantiated at status Idle
(0x1) and a state with a charge in progress at SOC 98.0. -/
theorem SetBmsStatus_default_branch_witness :
    (Idle ≠ Charging ∧ Idle ≠ CcsCharging ∧ Idle ≠ StartingCharge) ∧
    SetBmsStatus stateCharging Idle =
      (if stateCharging.charge_inprogress then
        { stateCharging with
          charge_type := "not charging"
          charge_state := if stateCharging.bat_soc ≥ 97 then "done" else "stopped"
          charge_inprogress := false }
      else stateCharging) :=
  ⟨⟨by decide, by decide, by decide⟩,
    SetBmsStatus_default_branch stateCharging Idle (by decide) (by decide) (by decide)⟩

/-- Claim C4: for every prior state, BMS status 0x7 (CcsCharging) sets
charge-in-progress to true, charge type to "ccs", charge current to the
negation of the battery-current metric, charge power to the battery-power
metric, charge voltage to the battery-voltage metric, and the charge
current limit to 82 A. -/
theorem SetBmsStatus_ccs (s : MgEvState) :
    SetBmsStatus s CcsCharging =
      { s with
        charge_inprogress := true
        charge_type := "ccs"
        charge_current := -s.bat_current
        charge_power := s.bat_power
        charge_voltage := s.bat_voltage
        charge_climit := 82 } := by
  rfl

/-- Claim C5: for every raw uint16 SOC reading, the scaled SOC equals
(raw - lower) * 100 / (upper - lower) with (lower, upper) = (25, 940) when
the updated-BMU-firmware parameter is enabled and (60, 970) when disabled,
with no clamping to [0,100]: the four documented boundary points hold, and
out-of-window raw readings produce out-of-range percentages. -/
theorem calculateSoc_spec :
    (∀ raw : Nat, calculateSoc true raw = ((raw : ℚ) - 25) * 100 / (940 - 25)) ∧
    (∀ raw : Nat, calculateSoc false raw = ((raw : ℚ) - 60) * 100 / (970 - 60)) ∧
    calculateSoc true 25 = 0 ∧ calculateSoc true 940 = 100 ∧
    calculateSoc false 60 = 0 ∧ calculateSoc false 970 = 100 ∧
    calculateSoc true 1000 > 100 ∧ calculateSoc true 0 < 0 ∧
    calculateSoc false 1000 > 100 ∧ calculateSoc false 0 < 0 := by
  refine ⟨fun raw => rfl, fun raw => rfl, ?_, ?_, ?_, ?_, ?_, ?_, ?_, ?_⟩ <;>
    norm_num [calculateSoc]

/-- Claim C6: for every bus-voltage frame, if the 2-byte big-endian raw
value is 0xFFFE the battery-voltage metric is set to the current internal
pack-voltage metric, and for every other raw value it is set to
raw * 0.25 V. -/
theorem IncomingBmsPoll_busVoltage_spec (s : MgEvState) (data : DataBytes)
    (length : Fin 256) (remain : Nat) :
    (IncomingBmsPoll s .batteryBusVoltage data length remain).bat_voltage =
      if (((data.d0 : Nat) <<< 8) ||| (data.d1 : Nat)) = 0xfffe then
        s.bat_pack_voltage
      else
        (((((data.d0 : Nat) <<< 8) ||| (data.d1 : Nat) : Nat) : ℚ)) * 0.25 := by
  by_cases h : (((data.d0 : Nat) <<< 8) ||| (data.d1 : Nat)) = 0xfffe
  · simp [IncomingBmsPoll, h]
  · simp [IncomingBmsPoll, h]

/-- Claim C7: for every current frame with 2-byte big-endian raw value, the
battery-current metric is set to ((raw - 40000) * 0.25) / 10 A (signed:
raws below 40000 give negative current) and the battery-power metric to
-(battery voltage * current) / 1000 kW; raw = 40000 yields current 0.0 A
and power 0.0 kW for every battery-voltage value. -/
theorem IncomingBmsPoll_current_spec (s : MgEvState) (data : DataBytes)
    (length : Fin 256) (remain : Nat) :
    (IncomingBmsPoll s .batteryCurrent data length remain).bat_current =
      ((((((data.d0 : Nat) <<< 8) ||| (data.d1 : Nat) : Nat) : ℚ)) - 40000) * 0.25 / 10 ∧
    (IncomingBmsPoll s .batteryCurrent data length remain).bat_power =
      -(s.bat_voltage *
        (((((((data.d0 : Nat) <<< 8) ||| (data.d1 : Nat) : Nat) : ℚ)) - 40000) * 0.25 / 10))
        / 1000 ∧
    (∀ t : MgEvState,
      (IncomingBmsPoll t .batteryCurrent ⟨0x9c, 0x40, 0, 0⟩ length remain).bat_current = 0 ∧
      (IncomingBmsPoll t .batteryCurrent ⟨0x9c, 0x40, 0, 0⟩ length remain).bat_power = 0) ∧
    (∀ t : MgEvState,
      (IncomingBmsPoll t .batteryCurrent ⟨0, 0, 0, 0⟩ length remain).bat_current < 0) := by
  have h40 : ((0x9c : Nat) <<< 8) ||| (0x40 : Nat) = 40000 := by decide
  have h00 : ((0 : Nat) <<< 8) ||| (0 : Nat) = 0 := by decide
  refine ⟨rfl, rfl, fun t => ⟨?_, ?_⟩, fun t => ?_⟩
  · show ((((0x9c : Nat) <<< 8) ||| (0x40 : Nat) : ℚ) - 40000) * 0.25 / 10 = 0
    rw [h40]; norm_num
  · show -(t.bat_voltage * (((((0x9c : Nat) <<< 8) ||| (0x40 : Nat) : ℚ) - 40000) * 0.25 / 10)) / 1000 = 0
    rw [h40]; norm_num
  · show ((((0 : Nat) <<< 8) ||| (0 : Nat) : ℚ) - 40000) * 0.25 / 10 < 0
    rw [h00]; norm_num

/-- Claim C8: for every SOC frame, when charge-in-progress is true the
charge-state string is set to "charging" if the scaled SOC is below 99.5
and to "topoff" otherwise, and is left unchanged when in-progress is
false; independently the frame sets soc_raw = raw / 10, bat_soc = scaled
SOC, and range_ideal = 262 * (scaled SOC / 100) km. -/
theorem IncomingBmsPoll_soc_spec (s : MgEvState) (data : DataBytes)
    (length : Fin 256) (remain : Nat) :
    (IncomingBmsPoll s .batterySoC data length remain).charge_state =
      (if s.charge_inprogress then
        if calculateSoc s.updatedbmu (((data.d0 : Nat) <<< 8) ||| (data.d1 : Nat)) < 99.5
        then "charging" else "topoff"
      else s.charge_state) ∧
    (IncomingBmsPoll s .batterySoC data length remain).soc_raw =
      ((((data.d0 : Nat) <<< 8) ||| (data.d1 : Nat) : Nat) : ℚ) / 10 ∧
    (IncomingBmsPoll s .batterySoC data length remain).bat_soc =
      calculateSoc s.updatedbmu (((data.d0 : Nat) <<< 8) ||| (data.d1 : Nat)) ∧
    (IncomingBmsPoll s .batterySoC data length remain).bat_range_ideal =
      262 * (calculateSoc s.updatedbmu (((data.d0 : Nat) <<< 8) ||| (data.d1 : Nat)) / 100) := by
  by_cases hp : s.charge_inprogress <;>
    by_cases hsc : calculateSoc s.updatedbmu (((data.d0 : Nat) <<< 8) ||| (data.d1 : Nat)) < 99.5 <;>
      simp [IncomingBmsPoll, hp, hsc]

/-- Claim C9: dispatching the same max-frame (remain = 0, same block index,
same data bytes) twice in succession with the same cache contents produces
identical decoded cell and pack values both times and leaves the decoder in
the same state after the second dispatch as after the first. -/
theorem ProcessBatteryStats_maxFrame_idempotent (s : MgEvState) (i : Fin 9)
    (data : DataBytes) :
    ProcessBatteryStats (ProcessBatteryStats s i data 0) i data 0
      = ProcessBatteryStats s i data 0 := by
  simp only [ProcessBatteryStats, ne_eq, not_true_eq_false, if_false]
  ext1 <;> simp [setElemValue, Function.update_idem]
  case pack_vmax => exact max?_getD_getD _ (vecVals_setElemValue_ne_nil _ _ _) _
  case pack_tmin => exact min?_getD_getD _ (vecVals_setElemValue_ne_nil _ _ _) _
  case pack_tmax => exact max?_getD_getD _ (vecVals_setElemValue_ne_nil _ _ _) _

/-- Claim C10: the one-byte cross-frame cache m_bmsCache is written only by
min-frame cell-block dispatches (remain nonzero, where it is set to
data[2]); every other dispatch — max-frames, all scalar PIDs, the BMS
status PID, and unrecognized PIDs — leaves m_bmsCache unchanged. -/
theorem m_bmsCache_write_discipline (s : MgEvState) (pid : Pid)
    (data : DataBytes) (length : Fin 256) (remain : Nat) :
    (IncomingBmsPoll s pid data length remain).m_bmsCache =
      match pid with
      | .cellStat _ => if remain ≠ 0 then data.d2 else s.m_bmsCache
      | _ => s.m_bmsCache := by
  cases pid with
  | cellStat i =>
      by_cases hr : remain ≠ 0 <;>
        simp [IncomingBmsPoll, ProcessBatteryStats, hr]
  | bmsStatus =>
      show (SetBmsStatus s data.d0).m_bmsCache = s.m_bmsCache
      rw [SetBmsStatus]
      split_ifs <;> rfl
  | batterySoC =>
      show (IncomingBmsPoll s .batterySoC data length remain).m_bmsCache = s.m_bmsCache
      rw [IncomingBmsPoll]
      split_ifs <;> rfl
  | batteryBusVoltage =>
      show (IncomingBmsPoll s .batteryBusVoltage data length remain).m_bmsCache = s.m_bmsCache
      rw [IncomingBmsPoll]
      split_ifs <;> rfl
  | batteryCurrent => rfl
  | batteryVoltage => rfl
  | batteryCoolantTemp => rfl
  | batterySoH => rfl
  | bmsRange => rfl
  | other => rfl
